import Mathlib

/-!
Verification of the crit-lines performance simulation engine.

The definitions below are a shallow embedding of the Python core
(`crit_lines/core`): the data models (`rider.py`, `bike.py`, `course.py`),
the physics model (`analysis_engine/physics.py`) and the course simulator
(`analysis_engine/simulator.py`).  Python floats are modelled as real
numbers; `Optional` fields as `Option ℝ`; code that can raise
(the unguarded division by `total_time` in `simulate_course`, which raises
`ZeroDivisionError` in Python when the course is degenerate) is modelled
with `Except`.  Display-only string labels (scenario names, course names)
carry no algorithmic content and are omitted from the embedded records.
-/

noncomputable section

/-! ## Data model (`core/data_models`) -/

/-- Single point on a course with position and elevation (`course.py`). -/
structure CoursePoint where
  latitude : ℝ
  longitude : ℝ
  elevation_m : ℝ
  distance_km : ℝ

/-- Segment of course between two points with calculated properties
(`course.py`).  `bearing_degrees` is optional, as in the source. -/
structure CourseSegment where
  start_point : CoursePoint
  end_point : CoursePoint
  distance_m : ℝ
  elevation_gain_m : ℝ
  gradient_percent : ℝ
  bearing_degrees : Option ℝ

/-- Wind conditions (`course.py`): speed in km/h, direction in degrees. -/
structure WindConditions where
  speed_kmh : ℝ
  direction_degrees : ℝ

/-- Wind speed in meters per second (`WindConditions.speed_ms`). -/
def WindConditions.speed_ms (w : WindConditions) : ℝ :=
  w.speed_kmh / 3.6

/-- Environmental conditions for course simulation (`course.py`). -/
structure CourseConditions where
  temperature_c : ℝ
  humidity_percent : ℝ
  pressure_hpa : ℝ
  wind : Option WindConditions

/-- Air density from the ideal-gas approximation
(`CourseConditions.air_density_kg_m3`); humidity is not used. -/
def CourseConditions.air_density_kg_m3 (c : CourseConditions) : ℝ :=
  (c.pressure_hpa * 100) / (287.05 * (c.temperature_c + 273.15))

/-- Riding position (`rider.py`). -/
inductive RidingPosition
  | drops
  | hoods
  | tops
  | aero_bars

/-- Standard CdA values by position, m² (`Rider.effective_cda`). -/
def positionCda : RidingPosition → ℝ
  | .drops => 0.30
  | .hoods => 0.35
  | .tops => 0.40
  | .aero_bars => 0.25

/-- Rider physical and performance characteristics (`rider.py`). -/
structure Rider where
  weight_kg : ℝ
  height_cm : Option ℝ
  ftp_watts : ℝ
  position : RidingPosition
  cda_m2 : Option ℝ
  clothing_drag_multiplier : ℝ

/-- Effective CdA based on position and clothing (`Rider.effective_cda`). -/
def Rider.effective_cda (r : Rider) : ℝ :=
  (match r.cda_m2 with
    | some base_cda => base_cda
    | none => positionCda r.position) * r.clothing_drag_multiplier

/-- Bike type (`bike.py`). -/
inductive BikeType
  | road
  | aero
  | climbing
  | tt
  | gravel

/-- Wheel type (`bike.py`). -/
inductive WheelType
  | standard
  | aero_shallow
  | aero_deep
  | disc
  | climbing

/-- Standard frame CdA values by bike type, m² (`Bike.frame_drag_area`). -/
def frameCdaDefault : BikeType → ℝ
  | .road => 0.15
  | .aero => 0.12
  | .climbing => 0.16
  | .tt => 0.08
  | .gravel => 0.17

/-- Standard wheel CdA values by wheel type, m² (`Bike.wheel_drag_area`). -/
def wheelCdaDefault : WheelType → ℝ
  | .standard => 0.10
  | .aero_shallow => 0.08
  | .aero_deep => 0.06
  | .disc => 0.04
  | .climbing => 0.11

/-- Default wheel weights by type, kg (`Bike._default_wheel_weight`). -/
def defaultWheelWeight : WheelType → ℝ
  | .standard => 1.8
  | .aero_shallow => 1.9
  | .aero_deep => 2.1
  | .disc => 2.3
  | .climbing => 1.4

/-- Bicycle equipment characteristics (`bike.py`). -/
structure Bike where
  bike_type : BikeType
  weight_kg : ℝ
  wheel_type : WheelType
  wheel_weight_kg : Option ℝ
  frame_cda_m2 : Option ℝ
  wheel_cda_m2 : Option ℝ
  crr : ℝ

/-- Total bike weight including wheels (`Bike.total_weight_kg`).  The Python
source reads `self.wheel_weight_kg or self._default_wheel_weight()`: a `None`
(and, by Python truthiness, an explicit `0.0`) falls back to the default. -/
def Bike.total_weight_kg (b : Bike) : ℝ :=
  b.weight_kg +
    match b.wheel_weight_kg with
    | some w => if w = 0 then defaultWheelWeight b.wheel_type else w
    | none => defaultWheelWeight b.wheel_type

/-- Frame drag area (`Bike.frame_drag_area`): explicit value wins, else
type default. -/
def Bike.frame_drag_area (b : Bike) : ℝ :=
  match b.frame_cda_m2 with
  | some x => x
  | none => frameCdaDefault b.bike_type

/-- Wheel drag area (`Bike.wheel_drag_area`). -/
def Bike.wheel_drag_area (b : Bike) : ℝ :=
  match b.wheel_cda_m2 with
  | some x => x
  | none => wheelCdaDefault b.wheel_type

/-- Total bike drag area, frame + wheels (`Bike.total_bike_cda`). -/
def Bike.total_bike_cda (b : Bike) : ℝ :=
  b.frame_drag_area + b.wheel_drag_area

/-- Configuration for rider comparison scenarios (`rider.py`).  The
display-only `name` string is omitted. -/
structure RiderConfig where
  rider : Rider
  effort_percentage : ℝ

/-- Effective power output for a scenario
(`RiderConfig.effective_power_watts`). -/
def RiderConfig.effective_power_watts (rc : RiderConfig) : ℝ :=
  rc.rider.ftp_watts * rc.effort_percentage

/-- Configuration for bike comparison scenarios (`bike.py`). -/
structure BikeConfig where
  bike : Bike

/-- Complete course with segments and metadata (`course.py`). -/
structure Course where
  segments : List CourseSegment
  total_distance_km : ℝ
  total_elevation_gain_m : ℝ
  total_elevation_loss_m : ℝ
  start_elevation_m : ℝ
  end_elevation_m : ℝ
  max_gradient_percent : ℝ
  min_gradient_percent : ℝ

/-! ## Physics model (`analysis_engine/physics.py`) -/

/-- Gravitational acceleration, m/s² (`CyclingPhysics.GRAVITY`). -/
def GRAVITY : ℝ := 9.81

/-- Degrees to radians (`math.radians`). -/
def radians (d : ℝ) : ℝ := d * Real.pi / 180

/-- Power required to overcome aerodynamic drag
(`CyclingPhysics._aerodynamic_power`). -/
def aerodynamic_power (rider : Rider) (bike : Bike) (speed_ms : ℝ)
    (conditions : CourseConditions) (wind_speed_ms : ℝ) : ℝ :=
  let effective_wind_speed := speed_ms + wind_speed_ms
  let total_cda := rider.effective_cda + bike.total_bike_cda
  let air_density := conditions.air_density_kg_m3
  let drag_force := 0.5 * air_density * total_cda * effective_wind_speed ^ 2
  drag_force * speed_ms

/-- Power required to overcome rolling resistance
(`CyclingPhysics._rolling_resistance_power`). -/
def rolling_resistance_power (total_mass_kg crr speed_ms : ℝ) : ℝ :=
  (crr * total_mass_kg * GRAVITY) * speed_ms

/-- Power required to overcome gravity on inclines
(`CyclingPhysics._gravitational_power`). -/
def gravitational_power (total_mass_kg gradient_percent speed_ms : ℝ) : ℝ :=
  (total_mass_kg * GRAVITY * Real.sin (Real.arctan (gradient_percent / 100)))
    * speed_ms

/-- Total power required to maintain speed on a segment
(`CyclingPhysics.calculate_power_required`); clamped at zero. -/
def calculate_power_required (rider : Rider) (bike : Bike)
    (segment : CourseSegment) (speed_ms : ℝ) (conditions : CourseConditions)
    (wind_speed_ms : ℝ) : ℝ :=
  let total_mass_kg := rider.weight_kg + bike.total_weight_kg
  let aero_power := aerodynamic_power rider bike speed_ms conditions wind_speed_ms
  let rolling_power := rolling_resistance_power total_mass_kg bike.crr speed_ms
  let gravity_power := gravitational_power total_mass_kg segment.gradient_percent speed_ms
  max 0 (aero_power + rolling_power + gravity_power)

/-- One fuel-indexed pass of the Newton-Raphson loop in
`CyclingPhysics.calculate_speed_from_power`.  The fuel argument models
`for _ in range(50)`: fuel `0` is loop exhaustion (return the current
guess); otherwise test the two early exits and recurse on the clamped
Newton update. -/
def newtonLoop (f : ℝ → ℝ) (power_watts : ℝ) : ℕ → ℝ → ℝ
  | 0, guess => guess
  | fuel + 1, guess =>
    if |f guess - power_watts| < 1 then guess
    else if |(f (guess + 0.01) - f guess) / 0.01| < 0.001 then guess
    else
      newtonLoop f power_watts fuel
        (max 0.1
          (guess - (f guess - power_watts) /
            ((f (guess + 0.01) - f guess) / 0.01)))

/-- Speed given power via the iterative method
(`CyclingPhysics.calculate_speed_from_power`): initial guess 10 m/s, at
most 50 iterations.  The `tolerance` parameter of the Python signature is
never read by the body and is omitted. -/
def calculate_speed_from_power (rider : Rider) (bike : Bike)
    (segment : CourseSegment) (power_watts : ℝ)
    (conditions : CourseConditions) (wind_speed_ms : ℝ) : ℝ :=
  newtonLoop
    (fun v => calculate_power_required rider bike segment v conditions wind_speed_ms)
    power_watts 50 10

/-- Time and average speed for a segment
(`CyclingPhysics.calculate_time_for_segment`). -/
def calculate_time_for_segment (rider : Rider) (bike : Bike)
    (segment : CourseSegment) (power_watts : ℝ)
    (conditions : CourseConditions) (wind_speed_ms : ℝ) : ℝ × ℝ :=
  let speed_ms :=
    calculate_speed_from_power rider bike segment power_watts conditions wind_speed_ms
  (segment.distance_m / speed_ms, speed_ms)

/-- Headwind/tailwind component for a segment
(`CyclingPhysics.estimate_wind_component`).  The Python parameter
`wind_conditions` may be `None`, modelled as `Option`. -/
def estimate_wind_component (_segment : CourseSegment)
    (wind_conditions : Option WindConditions)
    (course_bearing_degrees : ℝ) : ℝ :=
  match wind_conditions with
  | none => 0
  | some w =>
    let angle_diff := |w.direction_degrees - course_bearing_degrees|
    let angle_diff := min angle_diff (360 - angle_diff)
    let wind_component := w.speed_ms * Real.cos (radians angle_diff)
    if angle_diff > 90 then -wind_component else wind_component

/-! ## Course simulator (`analysis_engine/simulator.py`) -/

/-- Results for a single course segment (`SegmentResult`). -/
structure SegmentResult where
  segment_index : ℕ
  distance_m : ℝ
  elevation_gain_m : ℝ
  gradient_percent : ℝ
  time_seconds : ℝ
  average_speed_kmh : ℝ
  power_watts : ℝ

/-- Complete simulation results for a course (`SimulationResult`); the
display-only `scenario_name` string is omitted. -/
structure SimulationResult where
  rider_config : RiderConfig
  bike_config : BikeConfig
  total_time_seconds : ℝ
  total_distance_km : ℝ
  average_speed_kmh : ℝ
  average_power_watts : ℝ
  segment_results : List SegmentResult

/-- Wind component used for one segment inside
`CourseSimulator.simulate_course` (lines 84-88): zero unless wind is
configured and the segment has a bearing. -/
def segmentWindComponent (conditions : CourseConditions)
    (segment : CourseSegment) : ℝ :=
  match conditions.wind, segment.bearing_degrees with
  | some w, some bearing => estimate_wind_component segment (some w) bearing
  | _, _ => 0

/-- One iteration of the segment loop of `CourseSimulator.simulate_course`:
build the `SegmentResult` for segment `i`. -/
def simulateSegment (rider : Rider) (bike : Bike)
    (conditions : CourseConditions) (available_power : ℝ) (i : ℕ)
    (segment : CourseSegment) : SegmentResult :=
  let wind_speed_ms := segmentWindComponent conditions segment
  let ts := calculate_time_for_segment rider bike segment available_power
    conditions wind_speed_ms
  { segment_index := i
    distance_m := segment.distance_m
    elevation_gain_m := segment.elevation_gain_m
    gradient_percent := segment.gradient_percent
    time_seconds := ts.1
    average_speed_kmh := ts.2 * 3.6
    power_watts := available_power }

/-- The `for i, segment in enumerate(course.segments)` loop of
`CourseSimulator.simulate_course`, carrying the running index. -/
def simulateSegments (rider : Rider) (bike : Bike)
    (conditions : CourseConditions) (available_power : ℝ) :
    ℕ → List CourseSegment → List SegmentResult
  | _, [] => []
  | i, segment :: rest =>
    simulateSegment rider bike conditions available_power i segment ::
      simulateSegments rider bike conditions available_power (i + 1) rest

/-- Complete course simulation (`CourseSimulator.simulate_course`).  The
Python source computes `average_speed_kmh = (course.total_distance_km *
3600) / total_time` with no guard: when `total_time` is zero this raises
`ZeroDivisionError`, modelled here as `Except.error`.  The weighted
average power accumulates `available_power * time_seconds` per segment and
is divided by `total_time` only when `total_time > 0`, else it is `0`. -/
def simulate_course (course : Course) (rider_config : RiderConfig)
    (bike_config : BikeConfig) (conditions : CourseConditions) :
    Except String SimulationResult :=
  let rider := rider_config.rider
  let bike := bike_config.bike
  let available_power := rider_config.effective_power_watts
  let segment_results :=
    simulateSegments rider bike conditions available_power 0 course.segments
  let total_time := (segment_results.map SegmentResult.time_seconds).sum
  let total_power_time :=
    (segment_results.map (fun sr => available_power * sr.time_seconds)).sum
  if total_time = 0 then
    Except.error "ZeroDivisionError: float division by zero"
  else
    Except.ok
      { rider_config := rider_config
        bike_config := bike_config
        total_time_seconds := total_time
        total_distance_km := course.total_distance_km
        average_speed_kmh := (course.total_distance_km * 3600) / total_time
        average_power_watts :=
          if 0 < total_time then total_power_time / total_time else 0
        segment_results := segment_results }

/-- The "create modified rider config" block of
`CourseSimulator.analyze_power_impact` (lines 186-194): `model_copy` the
base rider, substitute the FTP, keep the base effort percentage. -/
def modifiedConfig (base_rider_config : RiderConfig) (ftp_watts : ℝ) :
    RiderConfig :=
  { rider := { base_rider_config.rider with ftp_watts := ftp_watts }
    effort_percentage := base_rider_config.effort_percentage }

/-- Impact of different FTP levels (`CourseSimulator.analyze_power_impact`):
for each FTP value, copy the base rider with that FTP substituted, keep the
base effort percentage, and simulate; results follow the input order.  A
raised error from `simulate_course` propagates, as in Python. -/
def analyze_power_impact (course : Course) (base_rider_config : RiderConfig)
    (bike_config : BikeConfig) (conditions : CourseConditions) :
    List ℝ → Except String (List SimulationResult)
  | [] => Except.ok []
  | ftp_watts :: rest =>
    match simulate_course course (modifiedConfig base_rider_config ftp_watts)
        bike_config conditions with
    | Except.error e => Except.error e
    | Except.ok result =>
      match analyze_power_impact course base_rider_config bike_config
          conditions rest with
      | Except.error e => Except.error e
      | Except.ok results => Except.ok (result :: results)

/-! ## Validity predicates

The pydantic `Field` bounds of the data models (`gt=0`, `ge=0.8` ... in
`rider.py` and `bike.py`), which the source enforces at construction
time. -/

/-- Field bounds pydantic enforces on `Rider`. -/
def Rider.Valid (r : Rider) : Prop :=
  0 < r.weight_kg ∧ 0 < r.ftp_watts ∧ (∀ x ∈ r.cda_m2, 0 < x) ∧
    0.8 ≤ r.clothing_drag_multiplier ∧ r.clothing_drag_multiplier ≤ 1.3

/-- Field bounds pydantic enforces on `Bike`. -/
def Bike.Valid (b : Bike) : Prop :=
  0 < b.weight_kg ∧ (∀ x ∈ b.wheel_weight_kg, 0 < x) ∧
    (∀ x ∈ b.frame_cda_m2, 0 < x) ∧ (∀ x ∈ b.wheel_cda_m2, 0 < x) ∧
    0 < b.crr ∧ b.crr ≤ 0.02

/-! ## Instrumented solver loop

`newtonLoopE` is `newtonLoop` with its exit path made observable, to state
which of the three ways the `for` loop in
`calculate_speed_from_power` ended: the 1-watt convergence break, the
small-derivative break, or exhaustion of the 50 iterations. -/

/-- The three ways the speed-solver loop can end. -/
inductive ExitKind
  | converged
  | flatDeriv
  | fuelOut
  deriving DecidableEq

/-- `newtonLoop` together with the exit path taken. -/
def newtonLoopE (f : ℝ → ℝ) (power_watts : ℝ) : ℕ → ℝ → ℝ × ExitKind
  | 0, guess => (guess, ExitKind.fuelOut)
  | fuel + 1, guess =>
    if |f guess - power_watts| < 1 then (guess, ExitKind.converged)
    else if |(f (guess + 0.01) - f guess) / 0.01| < 0.001 then
      (guess, ExitKind.flatDeriv)
    else
      newtonLoopE f power_watts fuel
        (max 0.1
          (guess - (f guess - power_watts) /
            ((f (guess + 0.01) - f guess) / 0.01)))

/-! ## Concrete inputs

A fixed rider/bike/conditions setup used by the witnesses and
counterexamples.  The conditions are chosen so the air density evaluates
to exactly 1 kg/m³ (861.15 hPa at 26.85 °C, i.e. 300 K); the rider and
bike use explicit drag areas and wheel weight, so the effective drag area
is 0.7 m², the total mass 80 kg, and the rolling coefficient 0.004. -/

/-- Placeholder geodetic point (the physics never reads it). -/
def dPoint : CoursePoint := ⟨0, 0, 0, 0⟩

/-- Concrete rider: 70 kg, FTP 400 W, explicit CdA 0.5 m². -/
def dRider : Rider :=
  { weight_kg := 70, height_cm := none, ftp_watts := 400,
    position := RidingPosition.hoods, cda_m2 := some 0.5,
    clothing_drag_multiplier := 1 }

/-- Concrete bike: 8 kg frame, 2 kg wheels, CdA 0.1 + 0.1 m², crr 0.004. -/
def dBike : Bike :=
  { bike_type := BikeType.road, weight_kg := 8,
    wheel_type := WheelType.standard, wheel_weight_kg := some 2,
    frame_cda_m2 := some 0.1, wheel_cda_m2 := some 0.1, crr := 0.004 }

/-- Concrete conditions: air density exactly 1 kg/m³, no wind. -/
def dCond : CourseConditions :=
  { temperature_c := 26.85, humidity_percent := 50, pressure_hpa := 861.15,
    wind := none }

/-- Steep descent segment: 1 km at -20 % gradient. -/
def dSeg : CourseSegment :=
  { start_point := dPoint, end_point := dPoint, distance_m := 1000,
    elevation_gain_m := -200, gradient_percent := -20,
    bearing_degrees := none }

/-- Flat segment: 1 km at 0 % gradient. -/
def fSeg : CourseSegment :=
  { start_point := dPoint, end_point := dPoint, distance_m := 1000,
    elevation_gain_m := 0, gradient_percent := 0, bearing_degrees := none }

/-- Rider config wrapping `dRider` at 100 % effort (400 W target). -/
def dRC : RiderConfig := { rider := dRider, effort_percentage := 1 }

/-- Bike config wrapping `dBike`. -/
def dBC : BikeConfig := { bike := dBike }

/-- One-segment course consisting of the steep descent. -/
def dCourse : Course :=
  { segments := [dSeg], total_distance_km := 1,
    total_elevation_gain_m := 0, total_elevation_loss_m := 200,
    start_elevation_m := 200, end_elevation_m := 0,
    max_gradient_percent := -20, min_gradient_percent := -20 }

/-- Empty course (zero segments). -/
def eCourse : Course :=
  { segments := [], total_distance_km := 0,
    total_elevation_gain_m := 0, total_elevation_loss_m := 0,
    start_elevation_m := 0, end_elevation_m := 0,
    max_gradient_percent := 0, min_gradient_percent := 0 }

/-- The simulation result the descent course produces: the solver hits the
flat-derivative exit at the initial 10 m/s guess (required power clamps to
zero on this descent), so the segment takes 100 s at 36 km/h. -/
def dResult : SimulationResult :=
  { rider_config := dRC, bike_config := dBC, total_time_seconds := 100,
    total_distance_km := 1, average_speed_kmh := 36,
    average_power_watts := 400,
    segment_results := [⟨0, 1000, -200, -20, 100, 36, 400⟩] }

/-! ## Solver-loop lemmas -/

/-- The instrumented loop computes the same speed as the source loop. -/
lemma newtonLoopE_fst (f : ℝ → ℝ) (P : ℝ) :
    ∀ (n : ℕ) (g : ℝ), (newtonLoopE f P n g).1 = newtonLoop f P n g
  | 0, _ => rfl
  | n + 1, g => by
    rw [newtonLoopE, newtonLoop]
    split_ifs
    · rfl
    · rfl
    · exact newtonLoopE_fst f P n _

/-- When the loop ends through the convergence break, the returned guess
satisfies the 1-watt stop criterion. -/
lemma newtonLoopE_converged (f : ℝ → ℝ) (P : ℝ) :
    ∀ (n : ℕ) (g : ℝ), (newtonLoopE f P n g).2 = ExitKind.converged →
      |f (newtonLoopE f P n g).1 - P| < 1
  | 0, g, h => by simp [newtonLoopE] at h
  | n + 1, g, h => by
    rw [newtonLoopE] at h ⊢
    split_ifs at h ⊢ with h1 h2
    · exact h1
    · exact newtonLoopE_converged f P n _ h

/-- Invariant of the solver loop: the guess never drops below the clamp. -/
lemma newtonLoop_ge_min (f : ℝ → ℝ) (P : ℝ) :
    ∀ (n : ℕ) (g : ℝ), 0.1 ≤ g → 0.1 ≤ newtonLoop f P n g
  | 0, _, hg => hg
  | n + 1, g, hg => by
    rw [newtonLoop]
    split_ifs
    · exact hg
    · exact hg
    · exact newtonLoop_ge_min f P n _ (le_max_left _ _)

/-! ## Claim theorems -/

/-- C10: `estimate_wind_component` does not read its segment argument; the
result is the same for any two segments given the same wind conditions and
course bearing. -/
theorem wind_component_segment_independent (s1 s2 : CourseSegment)
    (wc : Option WindConditions) (bearing : ℝ) :
    estimate_wind_component s1 wc bearing =
      estimate_wind_component s2 wc bearing := rfl

/-- C6: the wind component is zero when no wind is configured (both in
`estimate_wind_component` itself and in the simulator's per-segment guard)
and when the segment has no bearing (the simulator's guard skips the
estimate entirely). -/
theorem wind_component_zero_cases :
    (∀ (seg : CourseSegment) (bearing : ℝ),
      estimate_wind_component seg none bearing = 0) ∧
    (∀ (c : CourseConditions) (seg : CourseSegment),
      segmentWindComponent { c with wind := none } seg = 0) ∧
    (∀ (c : CourseConditions) (seg : CourseSegment),
      segmentWindComponent c { seg with bearing_degrees := none } = 0) := by
  refine ⟨fun _ _ => rfl, fun _ _ => rfl, fun c seg => ?_⟩
  unfold segmentWindComponent
  cases c.wind <;> rfl

/-- C5: the speed solver always returns at least the 0.1 m/s clamp (and,
by construction of `newtonLoop` with fuel 50, terminates within the
50-iteration budget of the source loop). -/
theorem speed_from_power_floor (r : Rider) (b : Bike) (seg : CourseSegment)
    (P : ℝ) (c : CourseConditions) (w : ℝ) :
    0.1 ≤ calculate_speed_from_power r b seg P c w :=
  newtonLoop_ge_min _ P 50 10 (by norm_num)

/-- C9: the magnitude of the wind component never exceeds the wind speed
(in m/s), for any bearing and any segment. -/
theorem wind_component_abs_le (seg : CourseSegment) (w : WindConditions)
    (bearing : ℝ) (hw : 0 ≤ w.speed_kmh) :
    |estimate_wind_component seg (some w) bearing| ≤ w.speed_ms := by
  have hs : 0 ≤ w.speed_ms := div_nonneg hw (by norm_num)
  unfold estimate_wind_component
  dsimp only
  split_ifs
  · rw [abs_neg, abs_mul, abs_of_nonneg hs]
    exact mul_le_of_le_one_right hs (Real.abs_cos_le_one _)
  · rw [abs_mul, abs_of_nonneg hs]
    exact mul_le_of_le_one_right hs (Real.abs_cos_le_one _)

/-- C9 witness: concrete wind of 18 km/h at 45 degrees on the descent
segment, checked against the bound. -/
theorem wind_component_abs_le_witness :
    |estimate_wind_component dSeg (some ⟨18, 45⟩) 0| ≤
      WindConditions.speed_ms ⟨18, 45⟩ :=
  wind_component_abs_le dSeg ⟨18, 45⟩ 0 (by norm_num)

/-- C1: evaluation at the failing input.  Wind at 18 km/h (5 m/s) blowing
from 180 degrees with travel bearing 0 degrees is a pure tailwind (folded
angle difference 180 degrees); the spec and the function docstring call
for -5, but the `angle_diff > 90` branch negates the already negative
cosine and the code returns +5. -/
theorem wind_component_at_180 (seg : CourseSegment) :
    estimate_wind_component seg (some ⟨18, 180⟩) 0 = 5 := by
  unfold estimate_wind_component WindConditions.speed_ms
  have h1 : |(180 : ℝ) - 0| = 180 := by norm_num
  have h2 : min (180 : ℝ) (360 - 180) = 180 := by norm_num
  simp only [h1, h2]
  have h3 : radians 180 = Real.pi := by unfold radians; ring
  rw [h3, Real.cos_pi]
  norm_num

/-- C2 (amended): when the speed solver stops through its convergence
test (`|power_required - power_watts| < 1`), the speed it returns maps
back through `calculate_power_required` to within 1 W of the requested
power.  The other two exit paths (small derivative, iteration exhaustion)
carry no such bound. -/
theorem inverse_consistency_when_converged (r : Rider) (b : Bike)
    (seg : CourseSegment) (P : ℝ) (c : CourseConditions) (w : ℝ)
    (h : (newtonLoopE
        (fun v => calculate_power_required r b seg v c w) P 50 10).2 =
      ExitKind.converged) :
    |calculate_power_required r b seg
        (calculate_speed_from_power r b seg P c w) c w - P| < 1 := by
  have hc := newtonLoopE_converged
    (fun v => calculate_power_required r b seg v c w) P 50 10 h
  rw [newtonLoopE_fst] at hc
  exact hc

/-- Core monotonicity fact behind C4: with non-negative quadratic
coefficient and non-negative wind, the clamped power curve
`max 0 (k (v + w)^2 v + a v)` is non-decreasing on `v ≥ 0`, for any sign
of the linear coefficient `a`. -/
lemma max_cubic_mono (k a w v1 v2 : ℝ) (hk : 0 ≤ k) (hw : 0 ≤ w)
    (h1 : 0 ≤ v1) (h12 : v1 ≤ v2) :
    max 0 (k * (v1 + w) ^ 2 * v1 + a * v1) ≤
      max 0 (k * (v2 + w) ^ 2 * v2 + a * v2) := by
  rcases le_or_lt (k * (v1 + w) ^ 2 * v1 + a * v1) 0 with hle | hpos
  · calc max 0 (k * (v1 + w) ^ 2 * v1 + a * v1) = 0 := max_eq_left hle
      _ ≤ max 0 (k * (v2 + w) ^ 2 * v2 + a * v2) := le_max_left _ _
  · have hv1 : 0 < v1 := by
      rcases h1.lt_or_eq with hv | hv
      · exact hv
      · exfalso; rw [← hv] at hpos; simp at hpos
    have hg1 : 0 < k * (v1 + w) ^ 2 + a := by
      by_contra hng
      push_neg at hng
      have : k * (v1 + w) ^ 2 * v1 + a * v1 ≤ 0 := by nlinarith
      linarith
    have hvw : 0 ≤ v1 + w := by linarith
    have hsq : (v1 + w) ^ 2 ≤ (v2 + w) ^ 2 := by nlinarith
    have hg12 : k * (v1 + w) ^ 2 + a ≤ k * (v2 + w) ^ 2 + a := by
      have := mul_le_mul_of_nonneg_left hsq hk
      linarith
    have hf12 : k * (v1 + w) ^ 2 * v1 + a * v1 ≤
        k * (v2 + w) ^ 2 * v2 + a * v2 := by nlinarith
    calc max 0 (k * (v1 + w) ^ 2 * v1 + a * v1)
        = k * (v1 + w) ^ 2 * v1 + a * v1 := max_eq_right hpos.le
      _ ≤ k * (v2 + w) ^ 2 * v2 + a * v2 := hf12
      _ ≤ max 0 (k * (v2 + w) ^ 2 * v2 + a * v2) := le_max_right _ _

/-- Positivity of the effective rider drag area under the pydantic
bounds. -/
lemma Rider.effective_cda_pos (r : Rider) (hr : r.Valid) :
    0 < r.effective_cda := by
  obtain ⟨-, -, hcda, hcl, -⟩ := hr
  unfold Rider.effective_cda
  have hm : (0 : ℝ) < r.clothing_drag_multiplier := by linarith
  cases h : r.cda_m2 with
  | some x => exact mul_pos (hcda x (by rw [h]; rfl)) hm
  | none => exact mul_pos (by cases r.position <;> norm_num [positionCda]) hm

/-- Positivity of the total bike drag area under the pydantic bounds. -/
lemma Bike.total_bike_cda_pos (b : Bike) (hb : b.Valid) :
    0 < b.total_bike_cda := by
  obtain ⟨-, -, hf, hw, -, -⟩ := hb
  unfold Bike.total_bike_cda Bike.frame_drag_area Bike.wheel_drag_area
  have h1 : (0 : ℝ) <
      (match b.frame_cda_m2 with
        | some x => x
        | none => frameCdaDefault b.bike_type) := by
    cases h : b.frame_cda_m2 with
    | some x => exact hf x (by rw [h]; rfl)
    | none => cases b.bike_type <;> norm_num [frameCdaDefault]
  have h2 : (0 : ℝ) <
      (match b.wheel_cda_m2 with
        | some x => x
        | none => wheelCdaDefault b.wheel_type) := by
    cases h : b.wheel_cda_m2 with
    | some x => exact hw x (by rw [h]; rfl)
    | none => cases b.wheel_type <;> norm_num [wheelCdaDefault]
  exact add_pos h1 h2

/-- C4 (amended): for valid rider and bike data, physically meaningful
air density, and a non-negative (headwind) wind component,
`calculate_power_required` is non-decreasing in speed on `v ≥ 0`; this
holds for every gradient.  For negative (tailwind) components the claim
fails, see the counterexample. -/
theorem power_required_monotone (r : Rider) (b : Bike)
    (seg : CourseSegment) (c : CourseConditions) (w v1 v2 : ℝ)
    (hr : r.Valid) (hb : b.Valid) (hd : 0 ≤ c.air_density_kg_m3)
    (hw : 0 ≤ w) (h1 : 0 ≤ v1) (h12 : v1 ≤ v2) :
    calculate_power_required r b seg v1 c w ≤
      calculate_power_required r b seg v2 c w := by
  unfold calculate_power_required aerodynamic_power
    rolling_resistance_power gravitational_power
  dsimp only
  have hk : 0 ≤ 0.5 * c.air_density_kg_m3 *
      (r.effective_cda + b.total_bike_cda) := by
    have := Rider.effective_cda_pos r hr
    have := Bike.total_bike_cda_pos b hb
    positivity
  have key := max_cubic_mono
    (0.5 * c.air_density_kg_m3 * (r.effective_cda + b.total_bike_cda))
    (b.crr * (r.weight_kg + b.total_weight_kg) * GRAVITY +
      (r.weight_kg + b.total_weight_kg) * GRAVITY *
        Real.sin (Real.arctan (seg.gradient_percent / 100)))
    w v1 v2 hk hw h1 h12
  convert key using 2 <;> ring

/-! ## Evaluation of the physics on the concrete inputs -/

/-- The concrete conditions have air density exactly 1 kg/m³. -/
lemma dCond_density : dCond.air_density_kg_m3 = 1 := by
  simp [dCond, CourseConditions.air_density_kg_m3]
  norm_num

/-- The concrete rider's effective drag area. -/
lemma dRider_cda : dRider.effective_cda = 0.5 := by
  simp [dRider, Rider.effective_cda]

/-- The concrete bike's total drag area. -/
lemma dBike_cda : dBike.total_bike_cda = 0.2 := by
  simp [dBike, Bike.total_bike_cda, Bike.frame_drag_area,
    Bike.wheel_drag_area]
  norm_num

/-- The concrete bike's total weight. -/
lemma dBike_weight : dBike.total_weight_kg = 10 := by
  simp [dBike, Bike.total_weight_kg]
  norm_num

/-- Closed form of the required power for the concrete rider and bike:
0.35 (v+w)² v aero watts, 3.1392 v rolling watts, and the gravity term of
the segment's gradient. -/
lemma power_shape (seg : CourseSegment) (v w : ℝ) :
    calculate_power_required dRider dBike seg v dCond w =
      max 0 (0.35 * (v + w) ^ 2 * v + 3.1392 * v +
        784.8 * Real.sin (Real.arctan (seg.gradient_percent / 100)) * v) := by
  unfold calculate_power_required aerodynamic_power rolling_resistance_power
    gravitational_power
  dsimp only
  rw [dCond_density, dRider_cda, dBike_cda, dBike_weight]
  rw [show dRider.weight_kg = 70 from rfl, show dBike.crr = 0.004 from rfl]
  rw [GRAVITY]
  ring_nf

/-- On the -20 % descent, gravity dominates for speeds between 9 and
11 m/s and the clamped required power is exactly zero. -/
lemma descent_power_zero (v : ℝ) (h9 : 9 ≤ v) (h11 : v ≤ 11) :
    calculate_power_required dRider dBike dSeg v dCond 0 = 0 := by
  rw [power_shape]
  have hspos : 0 < Real.sqrt (1 + (dSeg.gradient_percent / 100) ^ 2) := by
    apply Real.sqrt_pos.mpr
    positivity
  have hs : Real.sqrt (1 + (dSeg.gradient_percent / 100) ^ 2) ≤ 1.02 := by
    rw [show (1.02 : ℝ) = Real.sqrt (1.02 ^ 2) from
      (Real.sqrt_sq (by norm_num)).symm]
    apply Real.sqrt_le_sqrt
    simp [dSeg]
    norm_num
  have hsin : Real.sin (Real.arctan (dSeg.gradient_percent / 100)) ≤ -0.19 := by
    rw [Real.sin_arctan, div_le_iff₀ hspos]
    simp only [dSeg] at hs hspos ⊢
    nlinarith [hs, hspos]
  have hv0 : (0 : ℝ) < v := by linarith
  have hcube : v ^ 3 ≤ 121 * v := by
    nlinarith [mul_nonneg (mul_nonneg hv0.le (sub_nonneg.2 h11))
      (by linarith : (0 : ℝ) ≤ 11 + v)]
  apply max_eq_left
  have hsv : Real.sin (Real.arctan (dSeg.gradient_percent / 100)) * v ≤
      -0.19 * v := mul_le_mul_of_nonneg_right hsin hv0.le
  nlinarith [hsv, hcube, hv0]

/-- The gravity factor vanishes on the flat segment. -/
lemma flat_sin : Real.sin (Real.arctan (fSeg.gradient_percent / 100)) = 0 := by
  rw [show fSeg.gradient_percent = 0 from rfl]
  norm_num

/-- Required power on the flat segment for the concrete rider and bike. -/
lemma flat_power_eval (v w : ℝ) :
    calculate_power_required dRider dBike fSeg v dCond w =
      max 0 (0.35 * (v + w) ^ 2 * v + 3.1392 * v) := by
  rw [power_shape, flat_sin]
  ring_nf

/-- On the descent, the solver's finite-difference derivative is zero at
the initial guess (both probes clamp to zero power), so the
small-derivative exit fires and the initial 10 m/s guess is returned. -/
lemma descent_speed :
    calculate_speed_from_power dRider dBike dSeg 400 dCond 0 = 10 := by
  have h1 := descent_power_zero 10 (by norm_num) (by norm_num)
  have h2 := descent_power_zero (10 + 0.01) (by norm_num) (by norm_num)
  unfold calculate_speed_from_power
  show newtonLoop _ 400 (49 + 1) 10 = 10
  rw [newtonLoop]
  simp only [h1, h2]
  norm_num

/-- Required power at the initial guess on the flat segment. -/
lemma flat_power_at_10 :
    calculate_power_required dRider dBike fSeg 10 dCond 0 = 381.392 := by
  rw [flat_power_eval]
  rw [max_eq_right (by norm_num)]
  norm_num

/-- Asking for exactly the power required at the initial guess makes the
solver's convergence test fire on the first iteration. -/
lemma flat_exit_converged :
    (newtonLoopE
        (fun v => calculate_power_required dRider dBike fSeg v dCond 0)
        381.392 50 10).2 = ExitKind.converged := by
  show (newtonLoopE _ 381.392 (49 + 1) 10).2 = ExitKind.converged
  rw [newtonLoopE]
  simp only [flat_power_at_10]
  norm_num

/-- C4 counterexample: with a tailwind component of -20 m/s on the flat
segment, the required power at 5 m/s (about 409.4 W) exceeds the required
power at 10 m/s (about 381.4 W), so `calculate_power_required` is not
non-decreasing in speed for every wind component. -/
theorem power_required_monotone_counterexample :
    calculate_power_required dRider dBike fSeg 10 dCond (-20) <
      calculate_power_required dRider dBike fSeg 5 dCond (-20) := by
  rw [flat_power_eval, flat_power_eval]
  rw [max_eq_right (by norm_num), max_eq_right (by norm_num)]
  norm_num

/-- C4 witness: the amended monotonicity theorem applied to the concrete
valid rider and bike, zero wind, speeds 5 ≤ 10 on the flat segment. -/
theorem power_required_monotone_witness :
    calculate_power_required dRider dBike fSeg 5 dCond 0 ≤
      calculate_power_required dRider dBike fSeg 10 dCond 0 := by
  apply power_required_monotone dRider dBike fSeg dCond 0 5 10
  · refine ⟨by norm_num [dRider], by norm_num [dRider], ?_, ?_, ?_⟩ <;>
      simp [dRider] <;> norm_num
  · refine ⟨by norm_num [dBike], ?_, ?_, ?_, ?_, ?_⟩ <;>
      simp [dBike] <;> norm_num
  · rw [dCond_density]; norm_num
  · norm_num
  · norm_num
  · norm_num

/-- C2 counterexample: on the steep descent with 400 W requested, the
solver returns 10 m/s (far from the 0.1 m/s floor), where the required
power is 0 W: the round trip misses the requested power by 400 W, far
beyond the 1-2 W tolerance. -/
theorem inverse_consistency_counterexample :
    calculate_speed_from_power dRider dBike dSeg 400 dCond 0 = 10 ∧
      2 < |calculate_power_required dRider dBike dSeg
          (calculate_speed_from_power dRider dBike dSeg 400 dCond 0)
          dCond 0 - 400| := by
  refine ⟨descent_speed, ?_⟩
  rw [descent_speed, descent_power_zero 10 (by norm_num) (by norm_num)]
  norm_num

/-- C2 witness: requesting exactly 381.392 W on the flat segment makes
the solver stop through its convergence test, and the returned speed maps
back to within 1 W. -/
theorem inverse_consistency_witness :
    |calculate_power_required dRider dBike fSeg
        (calculate_speed_from_power dRider dBike fSeg 381.392 dCond 0)
        dCond 0 - 381.392| < 1 :=
  inverse_consistency_when_converged dRider dBike fSeg 381.392 dCond 0
    flat_exit_converged

/-! ## Course-level lemmas -/

/-- Every segment result carries the constant available power. -/
lemma simulateSegments_power (rider : Rider) (bike : Bike)
    (cond : CourseConditions) (P : ℝ) :
    ∀ (i : ℕ) (segs : List CourseSegment),
      ∀ sr ∈ simulateSegments rider bike cond P i segs, sr.power_watts = P
  | _, [] => by simp [simulateSegments]
  | i, seg :: rest => by
    simp only [simulateSegments, List.mem_cons]
    rintro sr (rfl | hmem)
    · rfl
    · exact simulateSegments_power rider bike cond P (i + 1) rest sr hmem

/-- Segment times are non-negative when segment distances are (the solver
speed is at least 0.1 m/s). -/
lemma simulateSegments_time_nonneg (rider : Rider) (bike : Bike)
    (cond : CourseConditions) (P : ℝ) :
    ∀ (i : ℕ) (segs : List CourseSegment),
      (∀ s ∈ segs, 0 ≤ s.distance_m) →
      ∀ sr ∈ simulateSegments rider bike cond P i segs, 0 ≤ sr.time_seconds
  | _, [], _ => by simp [simulateSegments]
  | i, seg :: rest, hd => by
    simp only [simulateSegments, List.mem_cons]
    rintro sr (rfl | hmem)
    · have hsp : (0 : ℝ) ≤ calculate_speed_from_power rider bike seg P cond
          (segmentWindComponent cond seg) :=
        le_trans (by norm_num) (newtonLoop_ge_min _ P 50 10 (by norm_num))
      exact div_nonneg (hd seg (List.mem_cons_self seg rest)) hsp
    · exact simulateSegments_time_nonneg rider bike cond P (i + 1) rest
        (fun s hs => hd s (List.mem_cons_of_mem seg hs)) sr hmem

/-- Weighted power sum over segment results factors out the constant. -/
lemma sum_power_time (P : ℝ) (l : List SegmentResult) :
    (l.map (fun sr => P * sr.time_seconds)).sum =
      P * (l.map SegmentResult.time_seconds).sum := by
  induction l with
  | nil => simp
  | cons a t ih => simp [ih]; ring

/-- The effective power of the concrete rider config. -/
lemma dRC_power : dRC.effective_power_watts = 400 := by
  simp [dRC, dRider, RiderConfig.effective_power_watts]

/-- The descent segment's simulated result. -/
lemma dSegResult :
    simulateSegment dRider dBike dCond 400 0 dSeg =
      ⟨0, 1000, -200, -20, 100, 36, 400⟩ := by
  unfold simulateSegment calculate_time_for_segment
  dsimp only
  rw [show segmentWindComponent dCond dSeg = 0 from rfl]
  rw [descent_speed]
  simp [dSeg]
  norm_num

/-- Full evaluation of `simulate_course` on the one-segment descent. -/
lemma simulate_descent :
    simulate_course dCourse dRC dBC dCond = Except.ok dResult := by
  unfold simulate_course
  dsimp only
  rw [show dRC.rider = dRider from rfl, show dBC.bike = dBike from rfl,
    show dCourse.segments = [dSeg] from rfl, dRC_power]
  unfold simulateSegments simulateSegments
  rw [dSegResult]
  simp only [List.map_cons, List.map_nil, List.sum_cons, List.sum_nil]
  norm_num
  simp [dResult, dCourse]
  norm_num

/-- A successful simulation stores the rider config it was given. -/
lemma simulate_course_ok_rider (course : Course) (rc : RiderConfig)
    (bc : BikeConfig) (cond : CourseConditions) (res : SimulationResult)
    (h : simulate_course course rc bc cond = Except.ok res) :
    res.rider_config = rc := by
  unfold simulate_course at h
  dsimp only at h
  split_ifs at h <;> (rw [Except.ok.injEq] at h; subst h; rfl)

/-- C3: a course with zero segments makes `simulate_course` raise the
division-by-zero error on the average-speed computation (total time is
zero); no `SimulationResult` is produced at all. -/
theorem simulate_empty_course_error (course : Course) (rc : RiderConfig)
    (bc : BikeConfig) (cond : CourseConditions)
    (h : course.segments = []) :
    simulate_course course rc bc cond =
      Except.error "ZeroDivisionError: float division by zero" := by
  unfold simulate_course
  rw [h]
  simp [simulateSegments]

/-- C3 witness: the concrete empty course raises the error. -/
theorem simulate_empty_course_error_witness :
    simulate_course eCourse dRC dBC dCond =
      Except.error "ZeroDivisionError: float division by zero" :=
  simulate_empty_course_error eCourse dRC dBC dCond rfl

/-- C8: any successfully returned simulation has time-weighted average
power exactly the rider config's effective power, and every segment
result records that same constant power (the model rides at constant
target power, descents included). -/
theorem simulate_course_constant_power (course : Course) (rc : RiderConfig)
    (bc : BikeConfig) (cond : CourseConditions) (res : SimulationResult)
    (hd : ∀ s ∈ course.segments, 0 ≤ s.distance_m)
    (h : simulate_course course rc bc cond = Except.ok res) :
    res.average_power_watts = rc.effective_power_watts ∧
      ∀ sr ∈ res.segment_results,
        sr.power_watts = rc.effective_power_watts := by
  unfold simulate_course at h
  dsimp only at h
  by_cases hT : ((simulateSegments rc.rider bc.bike cond
      rc.effective_power_watts 0 course.segments).map
        SegmentResult.time_seconds).sum = 0
  · rw [if_pos hT] at h
    simp at h
  · rw [if_neg hT] at h
    rw [Except.ok.injEq] at h
    subst h
    refine ⟨?_, simulateSegments_power rc.rider bc.bike cond
      rc.effective_power_watts 0 course.segments⟩
    have hnn : 0 ≤ ((simulateSegments rc.rider bc.bike cond
        rc.effective_power_watts 0 course.segments).map
          SegmentResult.time_seconds).sum := by
      apply List.sum_nonneg
      intro x hx
      rw [List.mem_map] at hx
      obtain ⟨sr, hsr, rfl⟩ := hx
      exact simulateSegments_time_nonneg rc.rider bc.bike cond
        rc.effective_power_watts 0 course.segments hd sr hsr
    dsimp only
    rw [if_pos (lt_of_le_of_ne hnn (Ne.symm hT))]
    rw [sum_power_time]
    exact mul_div_cancel_right₀ _ hT

/-- C8 witness: the descent run's average power equals the config's
effective power. -/
theorem simulate_course_constant_power_witness :
    dResult.average_power_watts = dRC.effective_power_watts :=
  (simulate_course_constant_power dCourse dRC dBC dCond dResult
    (by
      intro s hs
      simp [dCourse] at hs
      subst hs
      norm_num [dSeg])
    simulate_descent).1

/-- C7: when `analyze_power_impact` succeeds it yields one result per
input FTP value, in input order, and the i-th result's rider config is
the base rider with only the FTP replaced by the i-th power level (all
other rider fields and the effort percentage unchanged). -/
theorem analyze_power_impact_order (course : Course) (base : RiderConfig)
    (bc : BikeConfig) (cond : CourseConditions) :
    ∀ (powers : List ℝ) (results : List SimulationResult),
      analyze_power_impact course base bc cond powers = Except.ok results →
      results.length = powers.length ∧
      ∀ (i : ℕ) (hi : i < powers.length) (hj : i < results.length),
        (results.get ⟨i, hj⟩).rider_config =
          { rider := { base.rider with ftp_watts := powers.get ⟨i, hi⟩ }
            effort_percentage := base.effort_percentage }
  | [], results, h => by
    rw [analyze_power_impact] at h
    rw [Except.ok.injEq] at h
    subst h
    exact ⟨rfl, fun i hi hj => absurd hj (by simp)⟩
  | ftp :: rest, results, h => by
    rw [analyze_power_impact] at h
    cases hs : simulate_course course (modifiedConfig base ftp) bc cond with
    | error e => rw [hs] at h; simp at h
    | ok r =>
      rw [hs] at h
      cases hr : analyze_power_impact course base bc cond rest with
      | error e => rw [hr] at h; simp at h
      | ok rs =>
        rw [hr] at h
        rw [Except.ok.injEq] at h
        subst h
        obtain ⟨hlen, hidx⟩ :=
          analyze_power_impact_order course base bc cond rest rs hr
        refine ⟨by simp [hlen], ?_⟩
        intro i hi hj
        cases i with
        | zero =>
          exact simulate_course_ok_rider course (modifiedConfig base ftp)
            bc cond r hs
        | succ n =>
          exact hidx n (by simpa using hi) (by simpa using hj)

/-- Evaluation of `analyze_power_impact` on the descent course with the
single power level 400 W. -/
lemma analyze_descent :
    analyze_power_impact dCourse dRC dBC dCond [400] =
      Except.ok [dResult] := by
  rw [analyze_power_impact]
  rw [show modifiedConfig dRC 400 = dRC from rfl]
  rw [simulate_descent]
  rw [analyze_power_impact]

/-- C7 witness: applied to the concrete descent course and the single
power level 400 W. -/
theorem analyze_power_impact_order_witness :
    (([dResult] : List SimulationResult).get ⟨0, by simp⟩).rider_config =
      { rider := { dRC.rider with
          ftp_watts := ([(400 : ℝ)] : List ℝ).get ⟨0, by simp⟩ }
        effort_percentage := dRC.effort_percentage } :=
  (analyze_power_impact_order dCourse dRC dBC dCond [400] [dResult]
    analyze_descent).2 0 (by simp) (by simp)

end

